import Mathlib

/-!
Shallow embedding of the rag-chatbot frontend core: the structured response
schema (chat-message/@type-resp.ts), the message renderer (parent.tsx,
Table.tsx), the chat request flow (chat-interface.tsx, ChatInterface) and the
SQL data-extraction job state machine (chat-interface.tsx, SqlDataExtractor).
Each definition mirrors the TypeScript source construct it is named after.
-/

namespace RagChatbot

/-- A cell value of a table row: TypeScript `string | number | null`. -/
inductive CellValue
  | str (s : String)
  | num (n : Int)
  | null
deriving DecidableEq, Repr

/-- An entry of `table_layout.columns`: a key into row objects and a display label. -/
structure TableColumn where
  key : String
  label : String
deriving DecidableEq, Repr

/-- A table row: `Record<string, string | number | null>`, modelled as a
JavaScript-object association list keyed by property name. -/
abbrev TableRow := List (String × CellValue)

/-- `table_layout` payload of a `table` component. -/
structure TableLayout where
  columns : List TableColumn
  rows : List TableRow
deriving DecidableEq, Repr

/-- Allowed `label` values of a card meta entry: `"head" | "body" | "image" | "footer"`. -/
inductive MetaLabel
  | head | body | image | footer
deriving DecidableEq, Repr

/-- An entry of a card's `meta` list: a labeled string value. -/
structure CardMeta where
  label : MetaLabel
  value : String
deriving DecidableEq, Repr

/-- A single card of a `cards` component. -/
structure CardData where
  title : String
  subtitle : Option String
  meta : List CardMeta
deriving DecidableEq, Repr

/-- `cards_layout` payload of a `cards` component. -/
structure CardsLayout where
  cards : List CardData
deriving DecidableEq, Repr

/-- `list_layout` payload of a `list` component. -/
structure ListLayout where
  items : List String
deriving DecidableEq, Repr

/-- `text_layout` payload of a `text` component. -/
structure TextLayout where
  content : String
deriving DecidableEq, Repr

/-- One component of the `components` array in `@type-resp.ts`: the
TypeScript source is a closed tagged union over `component_type`, with the
three non-matching layout fields typed `?: never` in every variant, so each
variant carries exactly its own layout payload. -/
inductive Component
  | table (layout : TableLayout)
  | cards (layout : CardsLayout)
  | list (layout : ListLayout)
  | text (layout : TextLayout)
deriving DecidableEq, Repr

namespace Component

/-- The `component_type` discriminant string of a component. -/
def component_type : Component → String
  | .table _ => "table"
  | .cards _ => "cards"
  | .list _ => "list"
  | .text _ => "text"

/-- The `table_layout` field as read from a component value (`undefined`,
i.e. `none`, on the variants where the union types it `?: never`). -/
def tableLayout : Component → Option TableLayout
  | .table l => some l
  | _ => none

/-- The `cards_layout` field as read from a component value. -/
def cardsLayout : Component → Option CardsLayout
  | .cards l => some l
  | _ => none

/-- The `list_layout` field as read from a component value. -/
def listLayout : Component → Option ListLayout
  | .list l => some l
  | _ => none

/-- The `text_layout` field as read from a component value. -/
def textLayout : Component → Option TextLayout
  | .text l => some l
  | _ => none

/-- How many of the four layout fields of a component are populated. -/
def populatedLayoutCount (c : Component) : Nat :=
  (if c.tableLayout.isSome then 1 else 0) +
  (if c.cardsLayout.isSome then 1 else 0) +
  (if c.listLayout.isSome then 1 else 0) +
  (if c.textLayout.isSome then 1 else 0)

end Component

/-- One block of `content.structured`: message plus components. -/
structure StructuredBlock where
  message : String
  components : List Component
deriving DecidableEq, Repr

/-- The `content` field of a structured response. -/
structure ResponseContent where
  structured : List StructuredBlock
  rawtext : String
deriving DecidableEq, Repr

/-- `ResponseType` of `@type-resp.ts`: the structured response contract
between backend replies and the chat renderer. -/
structure ResponseType where
  intro_message : String
  content : ResponseContent
deriving DecidableEq, Repr

/-- C1: every component of a StructuredResponse populates exactly one layout
field, and it is the one matching its `component_type`; two populated layout
fields, or a populated field not matching the discriminant, are
unrepresentable in the `ResponseType` union. -/
theorem component_exactly_one_layout (c : Component) :
    c.populatedLayoutCount = 1 ∧
    (c.tableLayout.isSome ↔ c.component_type = "table") ∧
    (c.cardsLayout.isSome ↔ c.component_type = "cards") ∧
    (c.listLayout.isSome ↔ c.component_type = "list") ∧
    (c.textLayout.isSome ↔ c.component_type = "text") := by
  cases c <;> simp [Component.populatedLayoutCount, Component.component_type,
    Component.tableLayout, Component.cardsLayout, Component.listLayout,
    Component.textLayout]

/-! Chat request flow: getBotResponse and the Parent renderer. -/

/-- The `default` entry of the `botResponses` record in chat-interface.tsx. -/
def botResponsesDefault : String :=
  "Thank you for your question. I\x27m processing your request. For immediate assistance, you can also contact our Student Services office at (555) 123-4567 or email support@university.edu. Is there anything specific I can help you with?"

/-- `JSON.stringify` of an object carrying only an `intro_message` string
field (for strings needing no JSON escaping, as the default message above). -/
def jsonIntroMessage (s : String) : String :=
  "\x7b\"intro_message\":\"" ++ s ++ "\"\x7d"

/-- JavaScript `x || fallback` on an optional string field: the fallback is
taken when the field is absent (`undefined`) or the empty string (falsy). -/
def jsOrString (x : Option String) (fallback : String) : String :=
  match x with
  | some s => if s = "" then fallback else s
  | none => fallback

/-- `getBotResponse` (chat-interface.tsx): the POST to `/api/chat` either
yields a response whose data may carry a `reply` string field, or throws; a
throw, a missing reply and an empty reply all fall back to the stringified
default assistance message. -/
def getBotResponse (backend : Except Unit (Option String)) : String :=
  match backend with
  | .ok reply => jsOrString reply (jsonIntroMessage botResponsesDefault)
  | .error _ => jsonIntroMessage botResponsesDefault

/-- The fallback reply is a fixed non-empty string. -/
theorem jsonIntroMessage_default_ne_empty :
    jsonIntroMessage botResponsesDefault ≠ "" := by
  decide

/-- Whether a character is trimmed by `String.prototype.trim` (the common
whitespace characters). -/
def isJsWhitespace (c : Char) : Bool :=
  c = ' ' || c = '\t' || c = '\n' || c = '\r'

/-- Leading-whitespace removal over the reply's characters. -/
def dropLeadingWs : List Char → List Char
  | [] => []
  | c :: rest => if isJsWhitespace c then dropLeadingWs rest else c :: rest

/-- The guard under which Parent attempts `JSON.parse`: the trimmed reply
starts with an opening brace (code point 123) or an opening bracket (code
point 91). -/
def looksLikeJson (reply : String) : Bool :=
  match dropLeadingWs reply.data with
  | [] => false
  | c :: _ => c = Char.ofNat 123 || c = Char.ofNat 91

/-- The `content` field of a parsed reply as the untyped renderer sees it:
either sub-field may be absent (`undefined`) at runtime, whatever the TS
annotation promises. -/
structure JsParsedContent where
  structured : Option (List StructuredBlock)
  rawtext : Option String
deriving DecidableEq

/-- A JSON value a reply string parses to, as the untyped renderer sees it. -/
structure JsParsedValue where
  intro_message : Option String
  content : Option JsParsedContent
deriving DecidableEq

/-- What rendering one reply produces: the raw paragraph, the structured
view, or a thrown TypeError when a dereferenced field is absent. -/
inductive RenderResult
  | raw (s : String)
  | structured (intro : Option String) (blocks : List StructuredBlock)
      (rawtext : Option String)
  | typeError
deriving DecidableEq

/-- `Parent` (parent.tsx): when the reply looks like JSON it is parsed; on a
throw from `JSON.parse` the catch only logs, `response` stays at its initial
null, and the null branch renders the raw reply string. On a successful
parse the structured branch runs and dereferences
`response.content.structured` unconditionally, so an object with no
`content`, or one whose `content` has no `structured` array, throws a
TypeError during render. `parse` stands for the external `JSON.parse`. -/
def parentRender (parse : String → Option JsParsedValue) (reply : String) :
    RenderResult :=
  if looksLikeJson reply then
    match parse reply with
    | some v =>
        match v.content with
        | some c =>
            match c.structured with
            | some blocks => .structured v.intro_message blocks c.rawtext
            | none => .typeError
        | none => .typeError
    | none => .raw reply
  else .raw reply

/-- The value `JSON.parse` yields on the fallback reply string: an object
holding only `intro_message` — the stringified fallback carries no `content`
field. Other strings are irrelevant to the failing path and map to a
throw. -/
def jsonParseOnFallback : String → Option JsParsedValue :=
  fun s =>
    if s = jsonIntroMessage botResponsesDefault then
      some { intro_message := some botResponsesDefault, content := none }
    else none

set_option maxRecDepth 4096 in
/-- C2 at its failing input: getBotResponse does return the non-empty
stringified default assistance message on a thrown request, a missing reply
and an empty reply, and Parent does render raw text verbatim when the reply
is not JSON or `JSON.parse` throws — but the fallback reply itself parses to
an object with no `content` field, so Parent's structured branch dereferences
`content.structured` and the render throws a TypeError instead of displaying
a renderable message. -/
theorem chat_fallback_reply_crashes_render :
    getBotResponse (.error ()) = jsonIntroMessage botResponsesDefault ∧
    getBotResponse (.ok none) = jsonIntroMessage botResponsesDefault ∧
    getBotResponse (.ok (some "")) = jsonIntroMessage botResponsesDefault ∧
    getBotResponse (.error ()) ≠ "" ∧
    parentRender (fun _ => none) "plain text reply" =
      .raw "plain text reply" ∧
    parentRender (fun _ => none) "\x7b not valid json" =
      .raw "\x7b not valid json" ∧
    looksLikeJson (getBotResponse (.error ())) = true ∧
    parentRender jsonParseOnFallback (getBotResponse (.error ())) =
      .typeError := by
  refine ⟨rfl, rfl, by simp [getBotResponse, jsOrString], ?_, ?_, ?_, ?_, ?_⟩
  · simpa [getBotResponse] using jsonIntroMessage_default_ne_empty
  · decide
  · decide
  · decide
  · decide

/-! TableComponent rendering. -/

/-- JavaScript property read of key `key` on a table row object. -/
def rowValue (row : TableRow) (key : String) : Option CellValue :=
  row.lookup key

/-- The rendered shape of TableComponent: header cell texts and body cell
contents. -/
structure RenderedTable where
  header : List String
  body : List (List (Option CellValue))
deriving DecidableEq

/-- `TableComponent` (Table.tsx): the `thead` row maps `columns` to one `th`
per column showing its label; `tbody` maps `rows` to one `tr` per row, each
mapping `columns` to one `td` showing the row's value at the column's key. -/
def tableComponent (t : TableLayout) : RenderedTable :=
  { header := t.columns.map (fun col => col.label)
  , body := t.rows.map (fun row => t.columns.map (fun col => rowValue row col.key)) }

/-- C8: TableComponent renders exactly one header cell per column carrying
its label, exactly one body row per row entry, each body row holding one cell
per column whose content is the row's value at the column's key; an empty
rows list yields the header and zero body rows. -/
theorem tableComponent_shape (t : TableLayout) :
    (tableComponent t).header.length = t.columns.length ∧
    (∀ i : Nat, (tableComponent t).header[i]? =
      (t.columns[i]?).map (fun col => col.label)) ∧
    (tableComponent t).body.length = t.rows.length ∧
    (∀ i : Nat, ∀ row, t.rows[i]? = some row →
      (tableComponent t).body[i]? =
        some (t.columns.map (fun col => rowValue row col.key))) ∧
    (∀ i : Nat, ∀ r, (tableComponent t).body[i]? = some r →
      r.length = t.columns.length) ∧
    (t.rows = [] → (tableComponent t).body = []) := by
  refine ⟨by simp [tableComponent], ?_, by simp [tableComponent], ?_, ?_, ?_⟩
  · intro i
    simp [tableComponent, List.getElem?_map]
  · intro i row h
    simp [tableComponent, List.getElem?_map, h]
  · intro i r h
    simp only [tableComponent, List.getElem?_map] at h
    rcases hrow : t.rows[i]? with _ | row
    · rw [hrow] at h; simp at h
    · rw [hrow] at h
      simp only [Option.map_some'] at h
      cases h
      simp
  · intro h
    simp [tableComponent, h]

/-- A concrete two-column layout with one populated row. -/
def sampleTableLayout : TableLayout :=
  { columns := [⟨"name", "Name"⟩, ⟨"dept", "Department"⟩]
  , rows := [[("name", CellValue.str "Ada")]] }

/-- Witness for C8 at a concrete layout: the single body row has a cell per
column, looked up by key. -/
theorem tableComponent_shape_witness :
    (tableComponent sampleTableLayout).body[0]? =
      some [some (CellValue.str "Ada"), none] := by
  have h := (tableComponent_shape sampleTableLayout).2.2.2.1 0
    [("name", CellValue.str "Ada")] rfl
  rw [h]
  decide

/-! The SQL data-extraction job model (SqlDataExtractor in chat-interface.tsx). -/

/-- The declared status union of an ExtractionJob. -/
inductive JobStatus
  | queued | extracting | inserting | completed | failed
deriving DecidableEq, Repr

/-- The string literal of a status as written in the TypeScript union. -/
def JobStatus.name : JobStatus → String
  | .queued => "queued"
  | .extracting => "extracting"
  | .inserting => "inserting"
  | .completed => "completed"
  | .failed => "failed"

/-- Whether a status is terminal (completed or failed). -/
def JobStatus.isTerminal : JobStatus → Bool
  | .completed => true
  | .failed => true
  | _ => false

/-- Position of a status along the job lifecycle, terminal states last. -/
def JobStatus.rank : JobStatus → Nat
  | .queued => 0
  | .extracting => 1
  | .inserting => 2
  | .completed => 3
  | .failed => 3

/-- The ExtractionJob record of chat-interface.tsx. -/
structure ExtractionJob where
  id : String
  folderName : String
  filesCount : Nat
  status : JobStatus
  progress : Nat
  rowsExtracted : Nat
  rowsInserted : Nat
  tablesAffected : List String
  startedAt : String
  completedAt : Option String
  error : Option String
deriving DecidableEq, Repr

/-- The optional `updates` argument of updateJobStatus, a
`Partial` over ExtractionJob: absent fields leave the job's field alone. -/
structure JobUpdates where
  id : Option String := none
  folderName : Option String := none
  filesCount : Option Nat := none
  status : Option JobStatus := none
  progress : Option Nat := none
  rowsExtracted : Option Nat := none
  rowsInserted : Option Nat := none
  tablesAffected : Option (List String) := none
  startedAt : Option String := none
  completedAt : Option String := none
  error : Option String := none
deriving DecidableEq, Repr

/-- The object spread building the updated job record: base fields from the
job, then `status` and `progress`, then the `updates` spread last, so a field
present in `updates` wins. -/
def applyJobUpdate (job : ExtractionJob) (status : JobStatus) (progress : Nat)
    (updates : JobUpdates) : ExtractionJob :=
  { id := updates.id.getD job.id
  , folderName := updates.folderName.getD job.folderName
  , filesCount := updates.filesCount.getD job.filesCount
  , status := updates.status.getD status
  , progress := updates.progress.getD progress
  , rowsExtracted := updates.rowsExtracted.getD job.rowsExtracted
  , rowsInserted := updates.rowsInserted.getD job.rowsInserted
  , tablesAffected := updates.tablesAffected.getD job.tablesAffected
  , startedAt := updates.startedAt.getD job.startedAt
  , completedAt := match updates.completedAt with
      | some c => some c
      | none => job.completedAt
  , error := match updates.error with
      | some e => some e
      | none => job.error }

/-- `updateJobStatus` (chat-interface.tsx): maps over the jobs list replacing
the record whose id matches, and rebuilds `activeJob` the same way when its
id matches (a null active job stays null). -/
def updateJobStatus (jobId : String) (status : JobStatus) (progress : Nat)
    (updates : JobUpdates) (jobs : List ExtractionJob)
    (activeJob : Option ExtractionJob) :
    List ExtractionJob × Option ExtractionJob :=
  ( jobs.map (fun job =>
      if job.id = jobId then applyJobUpdate job status progress updates else job)
  , match activeJob with
    | some prev =>
        if prev.id = jobId then some (applyJobUpdate prev status progress updates)
        else some prev
    | none => none )

/-- C9: updateJobStatus only touches the job whose id matches: the jobs list
keeps its length and order, every job at a position whose id differs is
returned unchanged, a job whose id matches becomes the spread-updated record,
and the separately tracked active job is rebuilt only when its id matches. -/
theorem updateJobStatus_frame (jobId : String) (status : JobStatus)
    (progress : Nat) (updates : JobUpdates) (jobs : List ExtractionJob)
    (activeJob : Option ExtractionJob) :
    (updateJobStatus jobId status progress updates jobs activeJob).1.length =
      jobs.length ∧
    (∀ i : Nat, ∀ job, jobs[i]? = some job → job.id ≠ jobId →
      (updateJobStatus jobId status progress updates jobs activeJob).1[i]? =
        some job) ∧
    (∀ i : Nat, ∀ job, jobs[i]? = some job → job.id = jobId →
      (updateJobStatus jobId status progress updates jobs activeJob).1[i]? =
        some (applyJobUpdate job status progress updates)) ∧
    (activeJob = none →
      (updateJobStatus jobId status progress updates jobs activeJob).2 = none) ∧
    (∀ a, activeJob = some a → a.id ≠ jobId →
      (updateJobStatus jobId status progress updates jobs activeJob).2 = some a) ∧
    (∀ a, activeJob = some a → a.id = jobId →
      (updateJobStatus jobId status progress updates jobs activeJob).2 =
        some (applyJobUpdate a status progress updates)) := by
  refine ⟨by simp [updateJobStatus], ?_, ?_, ?_, ?_, ?_⟩
  · intro i job h hne
    simp [updateJobStatus, List.getElem?_map, h, hne]
  · intro i job h heq
    simp [updateJobStatus, List.getElem?_map, h, heq]
  · intro h
    simp [updateJobStatus, h]
  · intro a h hne
    simp [updateJobStatus, h, hne]
  · intro a h heq
    simp [updateJobStatus, h, heq]

/-- A concrete job record used by witnesses. -/
def sampleJob : ExtractionJob :=
  { id := "1", folderName := "student_records_2024", filesCount := 15
  , status := .completed, progress := 100, rowsExtracted := 2450
  , rowsInserted := 2450, tablesAffected := ["students", "enrollments", "grades"]
  , startedAt := "2024-01-15 14:30", completedAt := some "2024-01-15 14:35"
  , error := none }

/-- A second concrete job record used by witnesses. -/
def sampleJob2 : ExtractionJob :=
  { id := "2", folderName := "course_data_spring", filesCount := 8
  , status := .queued, progress := 0, rowsExtracted := 0
  , rowsInserted := 0, tablesAffected := []
  , startedAt := "2024-01-14 10:15", completedAt := none
  , error := none }

/-- Witness for C9: updating job `2` in a two-job list leaves job `1` at its
position untouched and leaves a null active job null. -/
theorem updateJobStatus_frame_witness :
    (updateJobStatus "2" .extracting 10 {} [sampleJob, sampleJob2] none).1[0]? =
      some sampleJob ∧
    (updateJobStatus "2" .extracting 10 {} [sampleJob, sampleJob2] none).2 =
      none := by
  have h := updateJobStatus_frame "2" .extracting 10 {} [sampleJob, sampleJob2]
    none
  exact ⟨h.2.1 0 sampleJob rfl (by decide), h.2.2.2.1 rfl⟩

/-! The sequence of status/progress updates one startExtraction run applies. -/

/-- One status/progress pair written to the job record by updateJobStatus. -/
abbrev JobUpdateEvent := JobStatus × Nat

/-- The five updateJobStatus calls of startExtraction's try block issued
before the upload request resolves: extracting at 10, 25, 40 and 60, then
inserting at 75. -/
def preAwaitUpdates : List JobUpdateEvent :=
  [(.extracting, 10), (.extracting, 25), (.extracting, 40), (.extracting, 60),
   (.inserting, 75)]

/-- How one run of startExtraction ends: either the POST resolves and the
branch follows `data.success`, or a throw is caught after `k` of the
pre-request updates were applied (the awaited request is the throwing
operation; `k` ranges over all prefixes so every throw point inside the try
block before the terminal update is covered). -/
inductive RunOutcome
  | resolved (dataSuccess : Bool)
  | thrown (k : Nat)

/-- The updates startExtraction applies to its job after creating it. On a
resolved request the post-request update (inserting, 90) is followed by the
terminal update — completed at 100 when `data.success`, failed at 100
otherwise; on a throw the catch handler applies the terminal
(failed, 100) update. -/
def runUpdates : RunOutcome → List JobUpdateEvent
  | .resolved ok =>
      preAwaitUpdates ++
        [(.inserting, 90), (if ok then .completed else .failed, 100)]
  | .thrown k => preAwaitUpdates.take k ++ [(.failed, 100)]

/-- The job's successive (status, progress) states over one run: the job is
created queued at progress 0, then each update overwrites both fields. -/
def jobStates (o : RunOutcome) : List JobUpdateEvent :=
  (.queued, 0) :: runUpdates o

/-- A throw after five or more applied updates happened at the awaited
request, after the full pre-request prefix. -/
theorem runUpdates_thrown_ge (k : Nat) (h : 5 ≤ k) :
    runUpdates (.thrown k) = runUpdates (.thrown 5) := by
  simp only [runUpdates]
  rw [List.take_of_length_le (by simpa [preAwaitUpdates] using h),
    List.take_of_length_le (by simp [preAwaitUpdates])]

/-- C3: over every run of startExtraction, the job's progress never
decreases, and exactly one update carries a terminal status — the last one,
after which no further update is applied. -/
theorem job_progress_monotone_single_terminal (o : RunOutcome) :
    List.Chain' (fun a b : JobUpdateEvent => a.2 ≤ b.2) (jobStates o) ∧
    (jobStates o).countP (fun s => s.1.isTerminal) = 1 ∧
    ((jobStates o).getLast?).map (fun s => s.1.isTerminal) = some true := by
  cases o with
  | resolved ok =>
    cases ok <;>
      exact ⟨by simp [jobStates, runUpdates, preAwaitUpdates, List.chain'_cons],
        by decide, by decide⟩
  | thrown k =>
    match k with
    | 0 | 1 | 2 | 3 | 4 =>
      exact ⟨by simp [jobStates, runUpdates, preAwaitUpdates, List.chain'_cons],
        by decide, by decide⟩
    | n + 5 =>
      rw [jobStates, runUpdates_thrown_ge (n + 5) (by omega)]
      exact ⟨by simp [jobStates, runUpdates, preAwaitUpdates, List.chain'_cons],
        by decide, by decide⟩

/-- C4 counterexample: in the run where the upload request throws, the stage
failed while the job's progress stood at 75, yet the failure update applied
after the failure sets progress to 100 — the progress is not frozen at the
value it had when the stage failed. -/
theorem job_failure_progress_jump_counterexample :
    jobStates (.thrown 5) =
      [(.queued, 0), (.extracting, 10), (.extracting, 25), (.extracting, 40),
       (.extracting, 60), (.inserting, 75), (.failed, 100)] ∧
    (100 : Nat) ≠ 75 := by
  constructor
  · rw [jobStates, runUpdates_thrown_ge 5 (by omega)]
    decide
  · decide

/-- Whether a run ends in failure: a thrown request, or a resolved request
whose `data.success` is false. -/
def RunOutcome.isFailure : RunOutcome → Bool
  | .resolved ok => !ok
  | .thrown _ => true

/-- C4 amended: in every failing run the failure update itself sets the job
to failed with progress 100, it is the only terminal update, and it is the
last update applied — so the progress is frozen at 100 from the failure
update on, not at the pre-failure value. -/
theorem job_failure_sets_failed_100_last (o : RunOutcome)
    (h : o.isFailure = true) :
    (jobStates o).getLast? = some (JobStatus.failed, 100) ∧
    (jobStates o).countP (fun s => s.1.isTerminal) = 1 := by
  cases o with
  | resolved ok =>
    cases ok with
    | false => decide
    | true => simp [RunOutcome.isFailure] at h
  | thrown k =>
    match k with
    | 0 | 1 | 2 | 3 | 4 => decide
    | n + 5 =>
      rw [jobStates, runUpdates_thrown_ge (n + 5) (by omega)]
      decide

/-- Witness for the amended C4 at the run that throws at the awaited
request. -/
theorem job_failure_sets_failed_100_last_witness :
    (jobStates (.thrown 5)).getLast? = some (JobStatus.failed, 100) :=
  (job_failure_sets_failed_100_last (.thrown 5) rfl).1

/-- C5 counterexample: the status sequence of a fully successful run is
queued, extracting (four updates), inserting (two updates), completed — it
never takes the value scanning (nor parsing, validating, transforming,
embedding or verifying): those stage names never appear as job statuses. -/
theorem job_status_no_scanning_counterexample :
    ((jobStates (.resolved true)).map (fun s => s.1.name)) =
      ["queued", "extracting", "extracting", "extracting", "extracting",
       "inserting", "inserting", "completed"] ∧
    "scanning" ∉ (jobStates (.resolved true)).map (fun s => s.1.name) := by
  decide

/-- C5 amended: over every run the job's status moves monotonically along
queued, then extracting, then inserting, then a terminal status — no
backward transition and no out-of-order stage — starting at queued, and the
status only ever takes values from the declared union of the five status
strings; the scanning-to-verifying stage labels live in the separate
extraction-steps display state, not in the job's status field. -/
theorem job_status_ordered_declared (o : RunOutcome) :
    List.Chain' (fun a b : JobUpdateEvent => a.1.rank ≤ b.1.rank)
      (jobStates o) ∧
    (jobStates o).head? = some (JobStatus.queued, 0) ∧
    ((jobStates o).map (fun s => s.1.name)).all
      (fun n =>
        ["queued", "extracting", "inserting", "completed", "failed"].contains
          n) = true := by
  cases o with
  | resolved ok =>
    cases ok <;>
      exact ⟨by simp [jobStates, runUpdates, preAwaitUpdates, List.chain'_cons,
        JobStatus.rank], by decide, by decide⟩
  | thrown k =>
    match k with
    | 0 | 1 | 2 | 3 | 4 =>
      exact ⟨by simp [jobStates, runUpdates, preAwaitUpdates, List.chain'_cons,
        JobStatus.rank], by decide, by decide⟩
    | n + 5 =>
      rw [jobStates, runUpdates_thrown_ge (n + 5) (by omega)]
      exact ⟨by simp [jobStates, runUpdates, preAwaitUpdates, List.chain'_cons,
        JobStatus.rank], by decide, by decide⟩

/-! Processing of the upload response (startExtraction, lines 277-314). -/

/-- A parsed per-table insert reported for one file: the target table and
the optional array of value rows. -/
structure ParsedQuery where
  table_name : String
  values : Option (List (List CellValue))
deriving DecidableEq, Repr

/-- A per-file entry of the response's `results` array. -/
structure FileResult where
  success : Bool
  parsed_queries : Option (List ParsedQuery)
deriving DecidableEq, Repr

/-- The body of the `/api/sql/insert-uploaded` response as startExtraction
reads it: the overall success flag, the optional per-file results array and
the optional error message. -/
structure UploadResponse where
  success : Bool
  results : Option (List FileResult)
  error : Option String
deriving DecidableEq, Repr

/-- `results.filter((r) => r.success)`. -/
def successfulResults (results : List FileResult) : List FileResult :=
  results.filter (fun r => r.success)

/-- The row count one parsed query contributes: the length of its values
array, zero when the array is absent. -/
def pqRowCount (pq : ParsedQuery) : Nat :=
  (pq.values.getD []).length

/-- The rows one file result contributes: zero when `parsed_queries` is
absent, otherwise summed over its parsed queries. -/
def fileRowCount (r : FileResult) : Nat :=
  ((r.parsed_queries.getD []).map pqRowCount).sum

/-- `totalRowsExtracted` — and `totalRowsInserted`, incremented identically —
after the forEach over the successful results. -/
def totalRows (results : List FileResult) : Nat :=
  ((successfulResults results).map fileRowCount).sum

/-- One `tablesSet.add`: JavaScript Sets keep insertion order, so adding
appends the name unless it is already present. -/
def insertTableName (acc : List String) (t : String) : List String :=
  if t ∈ acc then acc else acc ++ [t]

/-- The insertion-ordered table-name set built by the nested forEach over
successful results and their parsed queries, as delivered by
`Array.from(tablesSet)`. -/
def tablesAffectedOf (results : List FileResult) : List String :=
  (successfulResults results).foldl
    (fun acc r =>
      (r.parsed_queries.getD []).foldl
        (fun acc2 pq => insertTableName acc2 pq.table_name) acc)
    []

/-- Membership after one Set insertion. -/
theorem mem_insertTableName (acc : List String) (t x : String) :
    x ∈ insertTableName acc t ↔ x ∈ acc ∨ x = t := by
  by_cases h : t ∈ acc
  · simp only [insertTableName, if_pos h]
    constructor
    · exact fun hx => Or.inl hx
    · rintro (hx | rfl)
      · exact hx
      · exact h
  · simp [insertTableName, if_neg h]

/-- Membership after folding one file's parsed queries into the set. -/
theorem mem_foldl_insert_pqs (pqs : List ParsedQuery) (acc : List String)
    (x : String) :
    x ∈ pqs.foldl (fun a pq => insertTableName a pq.table_name) acc ↔
      x ∈ acc ∨ ∃ pq ∈ pqs, pq.table_name = x := by
  induction pqs generalizing acc with
  | nil => simp
  | cons pq rest ih =>
    rw [List.foldl_cons, ih, mem_insertTableName]
    constructor
    · rintro ((hx | hx) | ⟨q, hq, rfl⟩)
      · exact Or.inl hx
      · exact Or.inr ⟨pq, List.mem_cons_self pq rest, hx.symm⟩
      · exact Or.inr ⟨q, List.mem_cons_of_mem pq hq, rfl⟩
    · rintro (hx | ⟨q, hq, rfl⟩)
      · exact Or.inl (Or.inl hx)
      · rcases List.mem_cons.mp hq with rfl | hq
        · exact Or.inl (Or.inr rfl)
        · exact Or.inr ⟨q, hq, rfl⟩

/-- Membership after folding a list of file results into the set. -/
theorem mem_foldl_insert_results (rs : List FileResult) (acc : List String)
    (x : String) :
    x ∈ rs.foldl
        (fun a r =>
          (r.parsed_queries.getD []).foldl
            (fun a2 pq => insertTableName a2 pq.table_name) a)
        acc ↔
      x ∈ acc ∨ ∃ r ∈ rs, ∃ pq ∈ r.parsed_queries.getD [], pq.table_name = x := by
  induction rs generalizing acc with
  | nil => simp
  | cons r rest ih =>
    rw [List.foldl_cons, ih, mem_foldl_insert_pqs]
    constructor
    · rintro ((hx | ⟨q, hq, rfl⟩) | ⟨r', hr', hq'⟩)
      · exact Or.inl hx
      · exact Or.inr ⟨r, List.mem_cons_self r rest, q, hq, rfl⟩
      · exact Or.inr ⟨r', List.mem_cons_of_mem r hr', hq'⟩
    · rintro (hx | ⟨r', hr', hq'⟩)
      · exact Or.inl (Or.inl hx)
      · rcases List.mem_cons.mp hr' with rfl | hr'
        · exact Or.inl (Or.inr hq')
        · exact Or.inr ⟨r', hr', hq'⟩

/-- `x` is an affected table iff a parsed query of a successful result names
it. -/
theorem mem_tablesAffectedOf (results : List FileResult) (x : String) :
    x ∈ tablesAffectedOf results ↔
      ∃ r ∈ successfulResults results,
        ∃ pq ∈ r.parsed_queries.getD [], pq.table_name = x := by
  rw [tablesAffectedOf, mem_foldl_insert_results]
  simp

/-- The terminal update startExtraction applies once the upload request
resolves. The `data.success` branch completes the job at progress 100 with
the computed counters, the table list and a completion time; the other
branch marks it failed at progress 100, records the fallback-defaulted error
and the same counters, and sets no completion time. -/
def resolveJob (job : ExtractionJob) (data : UploadResponse) (now : String) :
    ExtractionJob :=
  let results := data.results.getD []
  if data.success then
    applyJobUpdate job .completed 100
      { rowsExtracted := some (totalRows results)
      , rowsInserted := some (totalRows results)
      , tablesAffected := some (tablesAffectedOf results)
      , completedAt := some now }
  else
    applyJobUpdate job .failed 100
      { error := some (jsOrString data.error "Extraction failed")
      , rowsExtracted := some (totalRows results)
      , rowsInserted := some (totalRows results)
      , tablesAffected := some (tablesAffectedOf results) }

/-- The catch handler's terminal update: failed at progress 100 with the
derived error message and a completion time. -/
def failJobOnThrow (job : ExtractionJob) (errorMessage : String)
    (now : String) : ExtractionJob :=
  applyJobUpdate job .failed 100
    { error := some errorMessage, completedAt := some now }

/-- The response reported for a 3-row CSV mapping to table `courses`. -/
def threeRowCsvResponse : UploadResponse :=
  { success := true
  , results := some
      [{ success := true
       , parsed_queries := some
           [{ table_name := "courses"
            , values := some [[CellValue.str "r1"], [CellValue.str "r2"],
                [CellValue.str "r3"]] }] }]
  , error := none }

/-- C6: a batch whose response reports overall success completes the job at
progress 100 with rowsExtracted and rowsInserted both equal to the total
value rows over the parsed queries of the successful per-file results, and
with tablesAffected holding exactly the table names those parsed queries
mention; in particular the 3-row CSV to `courses` yields counters 3 and 3
and the table set with the single name `courses`. -/
theorem upload_success_completes_job (job : ExtractionJob)
    (data : UploadResponse) (now : String) (h : data.success = true) :
    (resolveJob job data now).status = .completed ∧
    (resolveJob job data now).progress = 100 ∧
    (resolveJob job data now).rowsExtracted =
      totalRows (data.results.getD []) ∧
    (resolveJob job data now).rowsInserted =
      totalRows (data.results.getD []) ∧
    (resolveJob job data now).rowsExtracted =
      (resolveJob job data now).rowsInserted ∧
    (∀ x, x ∈ (resolveJob job data now).tablesAffected ↔
      ∃ r ∈ successfulResults (data.results.getD []),
        ∃ pq ∈ r.parsed_queries.getD [], pq.table_name = x) ∧
    (resolveJob job threeRowCsvResponse now).status = .completed ∧
    (resolveJob job threeRowCsvResponse now).rowsExtracted = 3 ∧
    (resolveJob job threeRowCsvResponse now).rowsInserted = 3 ∧
    (resolveJob job threeRowCsvResponse now).tablesAffected = ["courses"] := by
  refine ⟨?_, ?_, ?_, ?_, ?_, ?_, ?_, ?_, ?_, ?_⟩
  · simp [resolveJob, h, applyJobUpdate]
  · simp [resolveJob, h, applyJobUpdate]
  · simp [resolveJob, h, applyJobUpdate]
  · simp [resolveJob, h, applyJobUpdate]
  · simp [resolveJob, h, applyJobUpdate]
  · intro x
    simp only [resolveJob, h, if_pos, applyJobUpdate, Option.getD_some]
    exact mem_tablesAffectedOf _ x
  · simp [resolveJob, threeRowCsvResponse, applyJobUpdate]
  · simp [resolveJob, threeRowCsvResponse, applyJobUpdate]
    decide
  · simp [resolveJob, threeRowCsvResponse, applyJobUpdate]
    decide
  · simp [resolveJob, threeRowCsvResponse, applyJobUpdate]
    decide

/-- Witness for C6 at the 3-row CSV response. -/
theorem upload_success_completes_job_witness :
    (resolveJob sampleJob2 threeRowCsvResponse "t1").rowsExtracted = 3 ∧
    (resolveJob sampleJob2 threeRowCsvResponse "t1").rowsInserted = 3 ∧
    (resolveJob sampleJob2 threeRowCsvResponse "t1").tablesAffected =
      ["courses"] ∧
    (resolveJob sampleJob2 threeRowCsvResponse "t1").status = .completed := by
  have h := upload_success_completes_job sampleJob2 threeRowCsvResponse "t1"
    rfl
  exact ⟨h.2.2.2.2.2.2.2.1, h.2.2.2.2.2.2.2.2.1, h.2.2.2.2.2.2.2.2.2,
    h.2.2.2.2.2.2.1⟩

/-! Partial-failure policy of a batch upload. -/

/-- Modelled from the spec: the backend behind `/api/sql/insert-uploaded` is
not among the given sources; per the partial-failure policy it reports
overall failure only when zero rows succeeded — "the job is marked failed
only if zero rows/chunks succeeded, otherwise completed". -/
def specBackendSuccess (results : List FileResult) : Bool :=
  decide (0 < totalRows results)

/-- Modelled from the spec: the response such a backend returns for the
given per-file results. -/
def specBackendResponse (results : List FileResult) (error : Option String) :
    UploadResponse :=
  { success := specBackendSuccess results, results := some results
  , error := error }

/-- A mixed batch: one failed file alongside one successful two-row file. -/
def mixedBatchResults : List FileResult :=
  [ { success := false, parsed_queries := none }
  , { success := true
    , parsed_queries := some
        [{ table_name := "courses"
         , values := some [[CellValue.str "r1"], [CellValue.str "r2"]] }] } ]

/-- C7: against the spec-modelled backend, the job is marked failed only
when zero rows succeeded, and whenever at least one row succeeded it is
marked completed with the counters still accumulating every successful
sibling row; in particular the mixed batch with one failed file and one
successful two-row file completes with two rows counted. -/
theorem upload_failed_only_when_zero_rows (job : ExtractionJob)
    (results : List FileResult) (err : Option String) (now : String) :
    ((resolveJob job (specBackendResponse results err) now).status =
        .failed → totalRows results = 0) ∧
    (0 < totalRows results →
      (resolveJob job (specBackendResponse results err) now).status =
          .completed ∧
      (resolveJob job (specBackendResponse results err) now).rowsInserted =
        totalRows results) ∧
    (resolveJob job (specBackendResponse mixedBatchResults none) now).status =
      .completed ∧
    (resolveJob job (specBackendResponse mixedBatchResults none) now).rowsInserted = 2 := by
  refine ⟨?_, ?_, ?_, ?_⟩
  · intro hfail
    by_contra hne
    have hpos : 0 < totalRows results := Nat.pos_of_ne_zero hne
    have hs : specBackendSuccess results = true := by
      simp [specBackendSuccess, hpos]
    simp [resolveJob, specBackendResponse, hs, applyJobUpdate] at hfail
  · intro hpos
    have hs : specBackendSuccess results = true := by
      simp [specBackendSuccess, hpos]
    constructor
    · simp [resolveJob, specBackendResponse, hs, applyJobUpdate]
    · simp [resolveJob, specBackendResponse, hs, applyJobUpdate]
  · have hs : specBackendSuccess mixedBatchResults = true := by decide
    simp [resolveJob, specBackendResponse, hs, applyJobUpdate]
  · have hs : specBackendSuccess mixedBatchResults = true := by decide
    simp [resolveJob, specBackendResponse, hs, applyJobUpdate]
    decide

/-- Witness for C7 at the mixed batch, whose two successful rows force the
completed status. -/
theorem upload_failed_only_when_zero_rows_witness :
    (resolveJob sampleJob2 (specBackendResponse mixedBatchResults none) "t1").status = .completed ∧
    (resolveJob sampleJob2 (specBackendResponse mixedBatchResults none) "t1").rowsInserted = totalRows mixedBatchResults :=
  (upload_failed_only_when_zero_rows sampleJob2 mixedBatchResults none
    "t1").2.1 (by decide)

/-! The chat message list (ChatInterface in chat-interface.tsx). -/

/-- The sender tag of a chat message. -/
inductive Sender
  | user | bot
deriving DecidableEq, Repr

/-- The Message record of chat-interface.tsx (the timestamp is the opaque
Date value). -/
structure Message where
  id : String
  content : String
  sender : Sender
  timestamp : String
deriving DecidableEq, Repr

/-- `handleSendMessage` (chat-interface.tsx): appends the user message
carrying the typed content, then appends the bot message whose content is
getBotResponse's reply; ids and timestamps come from the clock and are
passed in here. -/
def handleSendMessage (msgs : List Message) (content : String)
    (backend : Except Unit (Option String)) (uid bid ts1 ts2 : String) :
    List Message :=
  (msgs ++ [{ id := uid, content := content, sender := .user
            , timestamp := ts1 }]) ++
    [{ id := bid, content := getBotResponse backend, sender := .bot
     , timestamp := ts2 }]

/-- C10: handleSendMessage appends exactly two messages — first the
user-sender message with the given content, then the bot-sender message
whose content is getBotResponse's reply — and every previously present
message keeps its position and value. -/
theorem handleSendMessage_appends_two (msgs : List Message) (content : String)
    (backend : Except Unit (Option String)) (uid bid ts1 ts2 : String) :
    (handleSendMessage msgs content backend uid bid ts1 ts2).length =
      msgs.length + 2 ∧
    (∀ i : Nat, i < msgs.length →
      (handleSendMessage msgs content backend uid bid ts1 ts2)[i]? =
        msgs[i]?) ∧
    (handleSendMessage msgs content backend uid bid ts1 ts2)[msgs.length]? =
      some { id := uid, content := content, sender := .user
           , timestamp := ts1 } ∧
    (handleSendMessage msgs content backend uid bid
        ts1 ts2)[msgs.length + 1]? =
      some { id := bid, content := getBotResponse backend, sender := .bot
           , timestamp := ts2 } := by
  refine ⟨by simp [handleSendMessage], ?_, ?_, ?_⟩
  · intro i hi
    have h1 : i < msgs.length + 1 := Nat.lt_succ_of_lt hi
    simp [handleSendMessage, List.getElem?_append, hi, h1]
  · simp [handleSendMessage, List.getElem?_append, List.getElem_append_right,
      Nat.sub_self]
  · simp [handleSendMessage, List.getElem?_append, List.getElem_append_right,
      Nat.sub_self]

/-- Witness for C10: sending a message over an empty history and a failed
request yields the user message then the bot fallback message. -/
theorem handleSendMessage_appends_two_witness :
    (handleSendMessage [] "hi" (.error ()) "10" "11" "t1" "t2").length =
      0 + 2 ∧
    (handleSendMessage [] "hi" (.error ()) "10" "11" "t1" "t2")[0]? =
      some { id := "10", content := "hi", sender := .user
           , timestamp := "t1" } := by
  have h := handleSendMessage_appends_two [] "hi" (.error ()) "10" "11" "t1"
    "t2"
  exact ⟨h.1, h.2.2.1⟩

end RagChatbot
